import Mathlib

/-!
Shallow embedding of the Emergent-Scrapper frontend client:
the axios API facade (`scraperAPI`), the tweet-browser component
(`TweetsList`) and the operations dashboard (`Dashboard`).

JavaScript values that flow into the query builder are modelled by the
inductive `JSVal`; JS numbers are modelled as exact rationals (the only
numeric values involved are small literals whose float representation is
not at issue for the properties below).  Components' local state is
modelled by explicit state records, and each asynchronous handler is
modelled as a pure state-transition function taking the outcome of the
HTTP call (`Except Unit α`) as an argument.
-/

/-- A JavaScript value as it can appear in the filter object passed to
`scraperAPI.getTweets`: `undefined`, `null`, a string, a number or a
boolean. -/
inductive JSVal where
  | undef : JSVal
  | null : JSVal
  | str : String → JSVal
  | num : ℚ → JSVal
  | bool : Bool → JSVal
deriving DecidableEq, Repr

/-- String coercion applied by `URLSearchParams.append` to a value. -/
def jsToString : JSVal → String
  | .undef => "undefined"
  | .null => "null"
  | .str s => s
  | .num q => toString q
  | .bool true => "true"
  | .bool false => "false"

/-- The guard in `scraperAPI.getTweets`:
`value !== undefined && value !== null && value !== ''`. -/
def keepsEntry (v : JSVal) : Bool :=
  v ≠ JSVal.undef && v ≠ JSVal.null && v ≠ JSVal.str ""

/-- Query construction of `scraperAPI.getTweets`: iterate over the
entries of the params object in order, appending each entry whose value
passes the guard to the `URLSearchParams`.  The query string is modelled
as the ordered list of appended (key, string-coerced value) pairs. -/
def getTweetsQuery (params : List (String × JSVal)) : List (String × String) :=
  (params.filter (fun kv => keepsEntry kv.2)).map (fun kv => (kv.1, jsToString kv.2))

/-- In a list of entries whose keys are pairwise distinct (as holds for
`Object.entries` of a JS object), a key determines its value. -/
theorem keys_nodup_value_eq {α β : Type} [DecidableEq α]
    (l : List (α × β)) (hnd : (l.map Prod.fst).Nodup)
    {k : α} {v v' : β} (h : (k, v) ∈ l) (h' : (k, v') ∈ l) : v = v' := by
  induction l with
  | nil => cases h
  | cons hd tl ih =>
      simp only [List.map_cons, List.nodup_cons] at hnd
      rcases List.mem_cons.mp h with rfl | h₁
      · rcases List.mem_cons.mp h' with h₂ | h₂
        · exact (congrArg Prod.snd h₂.symm)
        · exact absurd (List.mem_map.mpr ⟨(k, v'), h₂, rfl⟩) hnd.1
      · rcases List.mem_cons.mp h' with rfl | h₂
        · exact absurd (List.mem_map.mpr ⟨(k, v), h₁, rfl⟩) hnd.1
        · exact ih hnd.2 h₁ h₂

/-- Filter state of the `TweetsList` component (`useState` initial value
`{query:'', author:'', category:'', sentiment:'', has_media:null,
is_thread:null, min_quality_score:null, limit:20, offset:0}`). -/
structure Filters where
  query : String
  author : String
  category : String
  sentiment : String
  has_media : Option Bool
  is_thread : Option Bool
  min_quality_score : Option ℚ
  limit : ℚ
  offset : ℚ
deriving DecidableEq, Repr

/-- The initial filter state of `TweetsList`. -/
def initialFilters : Filters :=
  { query := "", author := "", category := "", sentiment := ""
    has_media := none, is_thread := none, min_quality_score := none
    limit := 20, offset := 0 }

/-- Conversion of a nullable boolean filter field to the JS value stored
in the filters object (`null` when unset). -/
def optBoolToVal : Option Bool → JSVal
  | none => .null
  | some b => .bool b

/-- Conversion of a nullable numeric filter field to the JS value stored
in the filters object (`null` when unset). -/
def optRatToVal : Option ℚ → JSVal
  | none => .null
  | some q => .num q

/-- `Object.entries(filters)` in the declaration order of the filters
object, as passed to `scraperAPI.getTweets`. -/
def filtersToParams (f : Filters) : List (String × JSVal) :=
  [("query", .str f.query), ("author", .str f.author),
   ("category", .str f.category), ("sentiment", .str f.sentiment),
   ("has_media", optBoolToVal f.has_media),
   ("is_thread", optBoolToVal f.is_thread),
   ("min_quality_score", optRatToVal f.min_quality_score),
   ("limit", .num f.limit), ("offset", .num f.offset)]

/-- The dynamic key used in `handleFilterChange(key, value)`. -/
inductive FilterKey where
  | query | author | category | sentiment
  | has_media | is_thread | min_quality_score | limit | offset
deriving DecidableEq, Repr

/-- Type of the value supplied for each filter key by the UI controls. -/
def FilterValue : FilterKey → Type
  | .query => String
  | .author => String
  | .category => String
  | .sentiment => String
  | .has_media => Option Bool
  | .is_thread => Option Bool
  | .min_quality_score => Option ℚ
  | .limit => ℚ
  | .offset => ℚ

/-- The computed-property update `{...prev, [key]: value}`. -/
def setField (f : Filters) : (k : FilterKey) → FilterValue k → Filters
  | .query, v => { f with query := v }
  | .author, v => { f with author := v }
  | .category, v => { f with category := v }
  | .sentiment, v => { f with sentiment := v }
  | .has_media, v => { f with has_media := v }
  | .is_thread, v => { f with is_thread := v }
  | .min_quality_score, v => { f with min_quality_score := v }
  | .limit, v => { f with limit := v }
  | .offset, v => { f with offset := v }

/-- `handleFilterChange`: `setFilters(prev => ({...prev, [key]: value,
offset: 0}))` — the trailing `offset: 0` wins over the computed key. -/
def handleFilterChange (f : Filters) (k : FilterKey) (v : FilterValue k) : Filters :=
  { setField f k v with offset := 0 }

/-- `handleLoadMore`: `setFilters(prev => ({...prev,
offset: prev.offset + prev.limit}))`. -/
def handleLoadMore (f : Filters) : Filters :=
  { f with offset := f.offset + f.limit }

/-- C1: for every filter object with distinct keys passed to
`scraperAPI.getTweets`, an entry whose value is `undefined`, `null` or
`''` contributes no pair to the query, and every other entry appears in
the query with its string-coerced value. -/
theorem getTweets_query_filtering
    (params : List (String × JSVal))
    (hnd : (params.map Prod.fst).Nodup)
    (k : String) (v : JSVal) (hmem : (k, v) ∈ params) :
    ((v = JSVal.undef ∨ v = JSVal.null ∨ v = JSVal.str "") →
      ∀ s, (k, s) ∉ getTweetsQuery params) ∧
    (v ≠ JSVal.undef → v ≠ JSVal.null → v ≠ JSVal.str "" →
      (k, jsToString v) ∈ getTweetsQuery params) := by
  constructor
  · intro hskip s hin
    have : keepsEntry v = false := by
      rcases hskip with rfl | rfl | rfl <;> rfl
    rcases List.mem_map.mp hin with ⟨⟨k', v'⟩, hfil, heq⟩
    have hk' : k' = k := congrArg Prod.fst heq
    subst hk'
    have hmem' := List.mem_filter.mp hfil
    have hv : v' = v := keys_nodup_value_eq params hnd hmem'.1 hmem
    rw [hv] at hmem'
    simp [this] at hmem'
  · intro h1 h2 h3
    have hkeep : keepsEntry v = true := by
      simp [keepsEntry, h1, h2, h3]
    exact List.mem_map.mpr ⟨(k, v), List.mem_filter.mpr ⟨hmem, hkeep⟩, rfl⟩

/-- Witness for C1 at a concrete filter object: `query:''` is dropped
and `limit:20` is kept. -/
theorem getTweets_query_filtering_witness :
    ((∀ s, ("query", s) ∉
        getTweetsQuery [("query", JSVal.str ""), ("limit", JSVal.num 20)]) ∧
      (("limit", jsToString (JSVal.num 20)) ∈
        getTweetsQuery [("query", JSVal.str ""), ("limit", JSVal.num 20)])) := by
  refine ⟨?_, ?_⟩
  · exact (getTweets_query_filtering
      [("query", JSVal.str ""), ("limit", JSVal.num 20)]
      (by decide) "query" (JSVal.str "") (by decide)).1
      (Or.inr (Or.inr rfl))
  · exact (getTweets_query_filtering
      [("query", JSVal.str ""), ("limit", JSVal.num 20)]
      (by decide) "limit" (JSVal.num 20) (by simp)).2
      (by decide) (by decide) (by decide)

/-- The `media_features` group of a tweet record. -/
structure MediaFeatures where
  has_media : Bool
  is_thread : Bool
deriving DecidableEq, Repr

/-- The `tweet_data` group of a tweet record. -/
structure TweetData where
  author : String
  text : String
  created_at : String
  url : Option String
  media_features : MediaFeatures
deriving DecidableEq, Repr

/-- The `sentiment` object inside an AI analysis. -/
structure Sentiment where
  label : String
deriving DecidableEq, Repr

/-- The `ai_analysis` group of a tweet record. -/
structure AIAnalysis where
  sentiment : Sentiment
  quality_score : ℚ
  engagement_prediction : ℚ
  topic : String
  categories : List String
  key_insights : List String
  intent : String
  entities : List String
deriving DecidableEq, Repr

/-- A tweet record as consumed by `TweetsList`; `ai_analysis` is
optional (absence means "not yet analyzed"). -/
structure Tweet where
  id : ℕ
  tweet_data : TweetData
  ai_analysis : Option AIAnalysis
deriving DecidableEq, Repr

/-- Local state of the `TweetsList` component. -/
structure TweetsState where
  tweets : List Tweet
  loading : Bool
  filters : Filters
  selectedTweet : Option Tweet
deriving DecidableEq, Repr

/-- The net state transition of `fetchTweets` given the outcome of
`scraperAPI.getTweets(filters)`: `setLoading(true)`; on success
`setTweets(response.data)`, on error only a log and a toast; finally
`setLoading(false)`. -/
def fetchTweetsResult (s : TweetsState) (result : Except Unit (List Tweet)) :
    TweetsState :=
  match result with
  | .ok data => { s with tweets := data, loading := false }
  | .error _ => { s with loading := false }

/-- C3: every successful tweet-list fetch (the single fetch path, also
taken after "load more") replaces the displayed list wholesale with the
response data, independently of the previously displayed list. -/
theorem fetchTweets_replaces_wholesale (s : TweetsState) (data : List Tweet) :
    (fetchTweetsResult s (Except.ok data)).tweets = data := rfl

/-- C7: a failed tweet-list fetch leaves the whole component state
unchanged except that the loading flag is cleared. -/
theorem fetchTweets_failure_clears_loading_only (s : TweetsState) :
    fetchTweetsResult s (Except.error ()) = { s with loading := false } := rfl

/-- C4: changing any filter field other than `offset` produces a filter
state with `offset = 0`, and the subsequent fetch built from that state
carries the query pair `offset=0`. -/
theorem handleFilterChange_resets_offset
    (f : Filters) (k : FilterKey) (v : FilterValue k) (hk : k ≠ FilterKey.offset) :
    (handleFilterChange f k v).offset = 0 ∧
    ("offset", jsToString (JSVal.num 0)) ∈
      getTweetsQuery (filtersToParams (handleFilterChange f k v)) := by
  have hoff : (handleFilterChange f k v).offset = 0 := rfl
  refine ⟨hoff, ?_⟩
  have hmem : ("offset", JSVal.num 0) ∈ filtersToParams (handleFilterChange f k v) := by
    simp [filtersToParams, hoff]
  exact List.mem_map.mpr
    ⟨("offset", JSVal.num 0), List.mem_filter.mpr ⟨hmem, by decide⟩, rfl⟩

/-- Witness for C4: changing the author filter on the initial state. -/
theorem handleFilterChange_resets_offset_witness :
    (handleFilterChange (handleLoadMore initialFilters) FilterKey.author "alice").offset = 0 ∧
    ("offset", jsToString (JSVal.num 0)) ∈
      getTweetsQuery (filtersToParams
        (handleFilterChange (handleLoadMore initialFilters) FilterKey.author "alice")) :=
  handleFilterChange_resets_offset (handleLoadMore initialFilters)
    FilterKey.author "alice" (by decide)

/-- C5: "load more" adds the current page size to the offset and leaves
every other filter field unchanged. -/
theorem handleLoadMore_increments_offset_only (f : Filters) :
    (handleLoadMore f).offset = f.offset + f.limit ∧
    (handleLoadMore f).query = f.query ∧
    (handleLoadMore f).author = f.author ∧
    (handleLoadMore f).category = f.category ∧
    (handleLoadMore f).sentiment = f.sentiment ∧
    (handleLoadMore f).has_media = f.has_media ∧
    (handleLoadMore f).is_thread = f.is_thread ∧
    (handleLoadMore f).min_quality_score = f.min_quality_score ∧
    (handleLoadMore f).limit = f.limit :=
  ⟨rfl, rfl, rfl, rfl, rfl, rfl, rfl, rfl, rfl⟩

/-- `getQualityColor` of `TweetsList`. -/
def getQualityColor (score : ℚ) : String :=
  if score ≥ 0.8 then "text-green-600 bg-green-100"
  else if score ≥ 0.6 then "text-yellow-600 bg-yellow-100"
  else "text-red-600 bg-red-100"

/-- C8: the quality badge uses the green ("high") styling for scores
≥ 0.8, the yellow ("medium") styling for scores in [0.6, 0.8), and the
red ("low") styling below 0.6; in particular at 0.85, 0.65 and 0.3. -/
theorem getQualityColor_thresholds (s : ℚ) :
    (0.8 ≤ s → getQualityColor s = "text-green-600 bg-green-100") ∧
    (0.6 ≤ s → s < 0.8 → getQualityColor s = "text-yellow-600 bg-yellow-100") ∧
    (s < 0.6 → getQualityColor s = "text-red-600 bg-red-100") ∧
    getQualityColor 0.85 = "text-green-600 bg-green-100" ∧
    getQualityColor 0.65 = "text-yellow-600 bg-yellow-100" ∧
    getQualityColor 0.3 = "text-red-600 bg-red-100" := by
  refine ⟨?_, ?_, ?_, by norm_num [getQualityColor], by norm_num [getQualityColor],
    by norm_num [getQualityColor]⟩
  · intro h; simp [getQualityColor, h]
  · intro h1 h2; simp [getQualityColor, h1, not_le.mpr h2]
  · intro h
    have h' : ¬ (0.8 : ℚ) ≤ s := by linarith
    simp [getQualityColor, not_le.mpr h, h']

/-- Witness for C8, instantiating the threshold cases at 0.85, 0.65 and
0.3. -/
theorem getQualityColor_thresholds_witness :
    getQualityColor 0.85 = "text-green-600 bg-green-100" ∧
    getQualityColor 0.65 = "text-yellow-600 bg-yellow-100" ∧
    getQualityColor 0.3 = "text-red-600 bg-red-100" :=
  ⟨(getQualityColor_thresholds 0.85).1 (by norm_num),
   ((getQualityColor_thresholds 0.65).2.1 (by norm_num) (by norm_num)),
   ((getQualityColor_thresholds 0.3).2.2.1 (by norm_num))⟩

/-- The render condition of the "Load More" button:
`tweets.length > 0 && tweets.length >= filters.limit`. -/
def showLoadMore (tweets : List Tweet) (limit : ℚ) : Bool :=
  decide (tweets.length > 0) && decide (limit ≤ (tweets.length : ℚ))

/-- C9: the "load more" control is rendered iff the displayed list is
non-empty and at least as long as the page size; in particular a page
shorter than the page size hides the control. -/
theorem showLoadMore_iff (tweets : List Tweet) (limit : ℚ) :
    (showLoadMore tweets limit = true ↔
      tweets ≠ [] ∧ limit ≤ (tweets.length : ℚ)) ∧
    ((tweets.length : ℚ) < limit → showLoadMore tweets limit = false) := by
  constructor
  · simp [showLoadMore, List.length_pos]
  · intro h
    simp [showLoadMore, not_le.mpr h]

/-- The category badges rendered on a tweet card: the section appears
only when `ai_analysis.categories` is present and non-empty, and shows
`categories.slice(0, 3)`. -/
def cardCategories (t : Tweet) : List String :=
  match t.ai_analysis with
  | none => []
  | some a => if a.categories.length > 0 then a.categories.take 3 else []

/-- The key insights rendered on a tweet card: the section appears only
when `ai_analysis.key_insights` is present and non-empty, and shows
`key_insights.slice(0, 2)`. -/
def cardKeyInsights (t : Tweet) : List String :=
  match t.ai_analysis with
  | none => []
  | some a => if a.key_insights.length > 0 then a.key_insights.take 2 else []

/-- The categories shown in the detail overlay
(`selectedTweet.ai_analysis.categories.join(', ')` — the full list). -/
def detailCategories (t : Tweet) : List String :=
  match t.ai_analysis with
  | none => []
  | some a => a.categories

/-- The key insights shown in the detail overlay
(`selectedTweet.ai_analysis.key_insights.map(...)` — the full list). -/
def detailKeyInsights (t : Tweet) : List String :=
  match t.ai_analysis with
  | none => []
  | some a => a.key_insights

/-- C10: a tweet card with an `ai_analysis` group renders exactly the
first 3 categories and the first 2 key insights (in list order, hence
at most 3 and at most 2 of them), while the detail overlay shows the
full lists. -/
theorem cardSlices_spec (t : Tweet) (a : AIAnalysis)
    (h : t.ai_analysis = some a) :
    cardCategories t = a.categories.take 3 ∧
    (cardCategories t).length ≤ 3 ∧
    cardKeyInsights t = a.key_insights.take 2 ∧
    (cardKeyInsights t).length ≤ 2 ∧
    detailCategories t = a.categories ∧
    detailKeyInsights t = a.key_insights := by
  have hc : cardCategories t = a.categories.take 3 := by
    simp only [cardCategories, h]
    by_cases hlen : a.categories.length > 0
    · simp [hlen]
    · simp at hlen
      simp [hlen]
  have hi : cardKeyInsights t = a.key_insights.take 2 := by
    simp only [cardKeyInsights, h]
    by_cases hlen : a.key_insights.length > 0
    · simp [hlen]
    · simp at hlen
      simp [hlen]
  refine ⟨hc, ?_, hi, ?_, by simp [detailCategories, h], by simp [detailKeyInsights, h]⟩
  · rw [hc]; exact le_trans (List.length_take_le 3 a.categories) (le_refl 3)
  · rw [hi]; exact le_trans (List.length_take_le 2 a.key_insights) (le_refl 2)

/-- A concrete analyzed tweet used to instantiate hypothesis-bearing
theorems. -/
def exampleTweet : Tweet :=
  { id := 1
    tweet_data :=
      { author := "alice", text := "hello",
        created_at := "2024-01-01T00:00:00Z", url := none,
        media_features := { has_media := false, is_thread := false } }
    ai_analysis := some
      { sentiment := { label := "positive" }
        quality_score := 0.85
        engagement_prediction := 0.5
        topic := "ai"
        categories := ["a", "b", "c", "d"]
        key_insights := ["i1", "i2", "i3"]
        intent := "inform"
        entities := [] } }

/-- Witness for C10: at the concrete tweet with 4 categories and 3
insights, the card shows the first 3 and the first 2, the overlay shows
all. -/
theorem cardSlices_spec_witness :
    cardCategories exampleTweet = ["a", "b", "c"] ∧
    detailCategories exampleTweet = ["a", "b", "c", "d"] ∧
    cardKeyInsights exampleTweet = ["i1", "i2"] ∧
    detailKeyInsights exampleTweet = ["i1", "i2", "i3"] := by
  obtain ⟨h1, -, h2, -, h3, h4⟩ :=
    cardSlices_spec exampleTweet
      { sentiment := { label := "positive" }
        quality_score := 0.85
        engagement_prediction := 0.5
        topic := "ai"
        categories := ["a", "b", "c", "d"]
        key_insights := ["i1", "i2", "i3"]
        intent := "inform"
        entities := [] } rfl
  exact ⟨by rw [h1]; decide, by rw [h3], by rw [h2]; decide, by rw [h4]⟩

/-- Witness for C9 at concrete inputs: a full page of 1 tweet with page
size 1 shows the control; a page shorter than the page size hides it. -/
theorem showLoadMore_iff_witness :
    showLoadMore [exampleTweet] 1 = true ∧ showLoadMore [exampleTweet] 20 = false :=
  ⟨(showLoadMore_iff [exampleTweet] 1).1.mpr (by simp),
   (showLoadMore_iff [exampleTweet] 20).2 (by norm_num)⟩

/-- An analytics snapshot as deserialized by the dashboard; every field
is optional because the failure default is the empty object `{}`. -/
structure Analytics where
  total_tweets : Option ℚ
  avg_quality_score : Option ℚ
  avg_engagement_score : Option ℚ
  sentiment_distribution : Option (List (String × ℚ))
  top_categories : Option (List (String × ℚ))
deriving DecidableEq, Repr

/-- The empty object `{ }` produced by
`scraperAPI.getAnalytics().catch(() => ({ data: {} }))`. -/
def emptyAnalytics : Analytics :=
  { total_tweets := none, avg_quality_score := none,
    avg_engagement_score := none, sentiment_distribution := none,
    top_categories := none }

/-- A scheduler status response; `running` is optional because the
failure default is the empty object `{}`. -/
structure SchedulerStatus where
  running : Option Bool
deriving DecidableEq, Repr

/-- The empty object `{ }` produced by
`scraperAPI.getSchedulerStatus().catch(() => ({ data: {} }))`. -/
def emptySchedulerStatus : SchedulerStatus :=
  { running := none }

/-- A scraping session record as rendered by the dashboard. -/
structure Session where
  id : ℕ
  tweets_processed : ℚ
  started_at : String
  status : String
deriving DecidableEq, Repr

/-- A configuration response; every field is optional because the
failure default is the empty object `{}`. -/
structure Config where
  schedule_interval : Option ℚ
  max_retries : Option ℚ
  batch_size : Option ℚ
deriving DecidableEq, Repr

/-- The empty object `{ }` produced by
`scraperAPI.getConfig().catch(() => ({ data: {} }))`. -/
def emptyConfig : Config :=
  { schedule_interval := none, max_retries := none, batch_size := none }

/-- Local state of the `Dashboard` component (`analytics`,
`schedulerStatus` and `config` start as `null`, `sessions` as `[]`). -/
structure DashboardState where
  analytics : Option Analytics
  schedulerStatus : Option SchedulerStatus
  sessions : List Session
  config : Option Config
  loading : Bool
deriving DecidableEq, Repr

/-- The net state transition of `fetchDashboardData` given the outcomes
of the four concurrent calls.  Each call carries its own
`.catch(() => ({ data: <default> }))`, so `Promise.all` always resolves
and the outer `catch` branch is unreachable: the transition is a total
function of the four outcomes, with `setLoading(false)` in `finally`. -/
def fetchDashboardData (s : DashboardState)
    (analyticsRes : Except Unit Analytics)
    (schedulerRes : Except Unit SchedulerStatus)
    (sessionsRes : Except Unit (List Session))
    (configRes : Except Unit Config) : DashboardState :=
  let analyticsData := match analyticsRes with
    | .ok a => a
    | .error _ => emptyAnalytics
  let schedulerData := match schedulerRes with
    | .ok st => st
    | .error _ => emptySchedulerStatus
  let sessionsData := match sessionsRes with
    | .ok l => l
    | .error _ => []
  let configData := match configRes with
    | .ok c => c
    | .error _ => emptyConfig
  { s with analytics := some analyticsData,
           schedulerStatus := some schedulerData,
           sessions := sessionsData,
           config := some configData,
           loading := false }

/-- Truthiness of the optional-chained `schedulerStatus?.running`:
`undefined` when the status is `null` or the field is absent. -/
def schedulerRunning (st : Option SchedulerStatus) : Bool :=
  match st with
  | none => false
  | some s =>
      match s.running with
      | some b => b
      | none => false

/-- The scheduler stat card's text:
`schedulerStatus?.running ? 'Running' : 'Stopped'`. -/
def schedulerStatText (st : Option SchedulerStatus) : String :=
  if schedulerRunning st then "Running" else "Stopped"

/-- C2: for the dashboard's four-way concurrent fetch, each succeeding
call populates its piece of state from its response, each failing call
sets its piece to its empty default (`{}` for analytics, scheduler
status and config, `[]` for sessions), the transition is total (the
per-call `.catch` means no error escapes), and when the scheduler call
fails the scheduler stat card renders its "Stopped" fallback. -/
theorem fetchDashboardData_partial_failure (s : DashboardState)
    (ra : Except Unit Analytics) (rs : Except Unit SchedulerStatus)
    (rl : Except Unit (List Session)) (rc : Except Unit Config) :
    (∀ a, ra = Except.ok a →
      (fetchDashboardData s ra rs rl rc).analytics = some a) ∧
    (ra = Except.error () →
      (fetchDashboardData s ra rs rl rc).analytics = some emptyAnalytics) ∧
    (∀ st, rs = Except.ok st →
      (fetchDashboardData s ra rs rl rc).schedulerStatus = some st) ∧
    (rs = Except.error () →
      (fetchDashboardData s ra rs rl rc).schedulerStatus = some emptySchedulerStatus ∧
      schedulerStatText (fetchDashboardData s ra rs rl rc).schedulerStatus = "Stopped") ∧
    (∀ l, rl = Except.ok l →
      (fetchDashboardData s ra rs rl rc).sessions = l) ∧
    (rl = Except.error () →
      (fetchDashboardData s ra rs rl rc).sessions = []) ∧
    (∀ c, rc = Except.ok c →
      (fetchDashboardData s ra rs rl rc).config = some c) ∧
    (rc = Except.error () →
      (fetchDashboardData s ra rs rl rc).config = some emptyConfig) ∧
    (fetchDashboardData s ra rs rl rc).loading = false := by
  refine ⟨fun a ha => ?_, fun ha => ?_, fun st hs => ?_, fun hs => ⟨?_, ?_⟩,
    fun l hl => ?_, fun hl => ?_, fun c hc => ?_, fun hc => ?_, ?_⟩ <;>
    first
      | (subst ha; cases rs <;> cases rl <;> cases rc <;> rfl)
      | (subst hs; cases ra <;> cases rl <;> cases rc <;>
          simp [fetchDashboardData, schedulerStatText, schedulerRunning,
            emptySchedulerStatus])
      | (subst hl; cases ra <;> cases rs <;> cases rc <;> rfl)
      | (subst hc; cases ra <;> cases rs <;> cases rl <;> rfl)
      | (cases ra <;> cases rs <;> cases rl <;> cases rc <;> rfl)

/-- The concrete dashboard state and responses used to instantiate the
C2 theorem. -/
def exampleAnalytics : Analytics :=
  { total_tweets := some 42, avg_quality_score := some 0.7,
    avg_engagement_score := some 0.5,
    sentiment_distribution := some [("positive", 30), ("negative", 12)],
    top_categories := some [("ai", 10)] }

/-- A concrete session record used to instantiate the C2 theorem. -/
def exampleSession : Session :=
  { id := 1, tweets_processed := 17,
    started_at := "2024-01-01T00:00:00Z", status := "completed" }

/-- A concrete configuration used to instantiate the C2 theorem. -/
def exampleConfig : Config :=
  { schedule_interval := some 3600, max_retries := some 3,
    batch_size := some 50 }

/-- The initial state of the `Dashboard` component. -/
def initialDashboardState : DashboardState :=
  { analytics := none, schedulerStatus := none, sessions := [],
    config := none, loading := true }

/-- Witness for C2: scheduler-status call fails while the other three
succeed; the three pieces are populated, the scheduler piece defaults to
`{}` and the stat card shows "Stopped". -/
theorem fetchDashboardData_partial_failure_witness :
    (fetchDashboardData initialDashboardState (Except.ok exampleAnalytics)
        (Except.error ()) (Except.ok [exampleSession])
        (Except.ok exampleConfig)).analytics = some exampleAnalytics ∧
    (fetchDashboardData initialDashboardState (Except.ok exampleAnalytics)
        (Except.error ()) (Except.ok [exampleSession])
        (Except.ok exampleConfig)).sessions = [exampleSession] ∧
    (fetchDashboardData initialDashboardState (Except.ok exampleAnalytics)
        (Except.error ()) (Except.ok [exampleSession])
        (Except.ok exampleConfig)).config = some exampleConfig ∧
    (fetchDashboardData initialDashboardState (Except.ok exampleAnalytics)
        (Except.error ()) (Except.ok [exampleSession])
        (Except.ok exampleConfig)).schedulerStatus = some emptySchedulerStatus ∧
    schedulerStatText (fetchDashboardData initialDashboardState
        (Except.ok exampleAnalytics) (Except.error ())
        (Except.ok [exampleSession])
        (Except.ok exampleConfig)).schedulerStatus = "Stopped" := by
  obtain ⟨h1, -, -, h4, h5, -, h7, -, -⟩ :=
    fetchDashboardData_partial_failure initialDashboardState
      (Except.ok exampleAnalytics) (Except.error ())
      (Except.ok [exampleSession]) (Except.ok exampleConfig)
  exact ⟨h1 exampleAnalytics rfl, h5 [exampleSession] rfl,
    h7 exampleConfig rfl, (h4 rfl).1, (h4 rfl).2⟩

/-- An observable API action issued by a dashboard handler. -/
inductive APICall where
  | stopScheduler
  | startScheduler
  | fetchDashboard
deriving DecidableEq, Repr

/-- The trace of API actions issued by `handleToggleScheduler`: if
`schedulerStatus?.running` is truthy it awaits `stopScheduler()`,
otherwise `startScheduler()`; if that call succeeds it then calls
`fetchDashboardData()` (on failure the `catch` swallows the error and no
refetch happens). -/
def handleToggleScheduler (st : Option SchedulerStatus) (callOk : Bool) :
    List APICall :=
  let action := if schedulerRunning st then APICall.stopScheduler
                else APICall.startScheduler
  if callOk then [action, APICall.fetchDashboard] else [action]

/-- C6: when the issued call succeeds, the toggle action stops the
scheduler exactly when the status reports `running: true`, starts it
when `running` is falsy or the status is absent, and in either case
immediately refetches the dashboard data. -/
theorem handleToggleScheduler_spec (st : Option SchedulerStatus) :
    (schedulerRunning st = true →
      handleToggleScheduler st true =
        [APICall.stopScheduler, APICall.fetchDashboard]) ∧
    (schedulerRunning st = false →
      handleToggleScheduler st true =
        [APICall.startScheduler, APICall.fetchDashboard]) ∧
    (st = none →
      handleToggleScheduler st true =
        [APICall.startScheduler, APICall.fetchDashboard]) := by
  refine ⟨fun h => ?_, fun h => ?_, fun h => ?_⟩
  · simp [handleToggleScheduler, h]
  · simp [handleToggleScheduler, h]
  · subst h
    simp [handleToggleScheduler, schedulerRunning]

/-- Witness for C6: with `running: true` the trace is stop-then-refetch;
with the status absent it is start-then-refetch. -/
theorem handleToggleScheduler_spec_witness :
    handleToggleScheduler (some { running := some true }) true =
      [APICall.stopScheduler, APICall.fetchDashboard] ∧
    handleToggleScheduler none true =
      [APICall.startScheduler, APICall.fetchDashboard] :=
  ⟨(handleToggleScheduler_spec (some { running := some true })).1 rfl,
   (handleToggleScheduler_spec none).2.2 rfl⟩
